import Mathlib

/-!
# Verification of the finbot Transaction Settlement Orchestrator

Shallow embedding of the core of the `finbot` repository:

* `src/db/models.py` — transaction state machine and data model;
* `src/db/repository.py` — repository operations over the store;
* `src/services/wallet_service.py` — deposit / withdrawal workflows;
* `src/utils/retry.py` — circuit breaker and retry executor;
* `src/services/ichancy_service.py` — response classification of the
  external wallet client.

Python floats (money amounts, wall-clock instants) are modelled as `ℚ`.
Fresh identifiers (Python's `uuid.uuid4()`) and the current wall-clock
instant (`datetime.utcnow()`) are passed in as explicit parameters.
Outcomes of external HTTP calls are passed in as explicit parameters of
type `ExtCall` (a returned response or a raised exception).
-/

namespace FinBot

/-- Python truthiness of an optional string (`if s:`): present and
non-empty. -/
def pyTruthy : Option String → Bool
  | some s => !s.isEmpty
  | none => false

/-- Render an optional string the way a Python f-string renders it
(`None` for a missing value). -/
def pyStr : Option String → String
  | some s => s
  | none => "None"

/-- Python `a or b` over optional strings: the first truthy operand,
otherwise the second operand as-is. -/
def pyOr (a b : Option String) : Option String :=
  match a with
  | some s => if s.isEmpty then b else some s
  | none => b

/-! ## Transaction state machine (src/db/models.py) -/

/-- `TransactionType` enum. -/
inductive TransactionType
  | deposit
  | withdrawal
  | bonus
  | refund
  | adjustment
  deriving DecidableEq, Repr, Fintype

/-- `TransactionState` enum. -/
inductive TransactionState
  | pending
  | processing
  | completed
  | failed
  | partiallyFailed
  | cancelled
  | reversed
  deriving DecidableEq, Repr, Fintype

/-- The `.value` string of a `TransactionState` member. -/
def TransactionState.value : TransactionState → String
  | .pending => "pending"
  | .processing => "processing"
  | .completed => "completed"
  | .failed => "failed"
  | .partiallyFailed => "partially_failed"
  | .cancelled => "cancelled"
  | .reversed => "reversed"

/-- `TransactionState.valid_transitions` (src/db/models.py lines 41-52). -/
def TransactionState.validTransitions : TransactionState → List TransactionState
  | .pending => [.processing, .cancelled]
  | .processing => [.completed, .failed, .partiallyFailed]
  | .completed => [.reversed]
  | .failed => [.pending]
  | .partiallyFailed => []
  | .cancelled => []
  | .reversed => []

/-- `TransactionState.can_transition_to` (src/db/models.py lines 54-57). -/
def TransactionState.canTransitionTo (s t : TransactionState) : Bool :=
  s.validTransitions.contains t

/-- `PaymentProvider` enum. -/
inductive PaymentProvider
  | syriatelCash
  | shamCash
  | manual
  deriving DecidableEq, Repr, Fintype

/-- `PaymentState` enum. -/
inductive PaymentState
  | pending
  | verified
  | failed
  | expired
  deriving DecidableEq, Repr, Fintype

/-- `UserState` enum. -/
inductive UserState
  | active
  | blocked
  | pendingVerification
  deriving DecidableEq, Repr, Fintype

/-! ## Data model (src/db/models.py dataclasses) -/

/-- The `User` dataclass / `users` row. -/
structure User where
  id : Nat
  telegramUsername : Option String := none
  ichancyUsername : Option String := none
  ichancyPassword : Option String := none
  ichancyRegistered : Bool := false
  state : UserState := .active
  localBalance : ℚ := 0
  totalDeposited : ℚ := 0
  totalWithdrawn : ℚ := 0
  createdAt : ℚ := 0
  updatedAt : ℚ := 0
  blockedReason : Option String := none
  deriving DecidableEq, Repr

/-- The `Transaction` dataclass / `transactions` row. -/
structure Transaction where
  id : String
  userId : Nat := 0
  type : TransactionType := .deposit
  state : TransactionState := .pending
  amount : ℚ := 0
  currency : String := "SYP"
  idempotencyKey : Option String := none
  paymentReference : Option String := none
  ichancyReference : Option String := none
  processingStartedAt : Option ℚ := none
  completedAt : Option ℚ := none
  errorMessage : Option String := none
  retryCount : Nat := 0
  createdAt : ℚ := 0
  updatedAt : ℚ := 0
  balanceBefore : Option ℚ := none
  balanceAfter : Option ℚ := none
  deriving DecidableEq, Repr

/-- The `Payment` dataclass / `payments` row (the spec's Settlement
Record). -/
structure Payment where
  id : String
  userId : Nat := 0
  transactionId : Option String := none
  provider : PaymentProvider := .syriatelCash
  state : PaymentState := .pending
  amount : ℚ := 0
  providerReference : Option String := none
  phoneNumber : Option String := none
  verifiedAt : Option ℚ := none
  verificationAttempts : Nat := 0
  createdAt : ℚ := 0
  expiresAt : Option ℚ := none
  deriving DecidableEq, Repr

/-- The durable store: the three tables touched by the settlement
workflows.  Rows are kept in insertion order; `find?` models the
single-row `SELECT`. -/
structure DB where
  users : List User := []
  transactions : List Transaction := []
  payments : List Payment := []
  deriving DecidableEq, Repr

/-! ## Repository layer (src/db/repository.py) -/

/-- `UserRepository.get_by_id`. -/
def DB.getUserById (db : DB) (userId : Nat) : Option User :=
  db.users.find? (fun u => u.id == userId)

/-- `TransactionRepository.get_by_id`. -/
def DB.getTxnById (db : DB) (transactionId : String) : Option Transaction :=
  db.transactions.find? (fun t => t.id == transactionId)

/-- `TransactionRepository.get_by_idempotency_key`. -/
def DB.getTxnByIdempotencyKey (db : DB) (key : String) : Option Transaction :=
  db.transactions.find? (fun t => t.idempotencyKey == some key)

/-- `WalletService._get_transaction_payment`. -/
def DB.getTransactionPayment (db : DB) (transactionId : String) : Option Payment :=
  db.payments.find? (fun p => p.transactionId == some transactionId)

/-- Errors raised by the repository / wallet service
(src/utils/exceptions.py). -/
inductive WalletError
  | userNotFound (userId : Nat)
  | userBlocked (userId : Nat) (reason : Option String)
  | insufficientBalance (userId : Nat) (required available : ℚ)
  | duplicateTransaction (idempotencyKey : String) (originalTransactionId : String)
  deriving DecidableEq, Repr

/-- `TransactionRepository.create` (src/db/repository.py lines 202-225):
if the new transaction carries a (truthy) idempotency key and a
transaction with that key already exists, raise
`DuplicateTransactionException` naming the existing transaction;
otherwise insert the row. -/
def createTransaction (db : DB) (txn : Transaction) : Except WalletError DB :=
  if pyTruthy txn.idempotencyKey then
    match db.getTxnByIdempotencyKey (txn.idempotencyKey.getD "") with
    | some existing => .error (.duplicateTransaction (txn.idempotencyKey.getD "") existing.id)
    | none => .ok { db with transactions := db.transactions ++ [txn] }
  else
    .ok { db with transactions := db.transactions ++ [txn] }

/-- Apply `f` to the transaction row(s) with the given id (the SQL
`UPDATE transactions ... WHERE id = ?`). -/
def updateTransactionRow (db : DB) (transactionId : String)
    (f : Transaction → Transaction) : DB :=
  { db with transactions :=
      db.transactions.map (fun t => if t.id == transactionId then f t else t) }

/-- `TransactionRepository.update_state` (src/db/repository.py lines
251-288): fetch the row, validate the transition against the state
machine, and only then write the new state (stamping
`processing_started_at` on entering PROCESSING and `completed_at` on
entering COMPLETED / FAILED).  Returns `false` leaving the store
untouched when the row is missing or the transition is illegal.
`stampState` is the per-row write it performs. -/
def stampState (newState : TransactionState) (errorMessage : Option String)
    (now : ℚ) (t : Transaction) : Transaction :=
  let t' := { t with state := newState, updatedAt := now,
                     errorMessage := errorMessage }
  if newState == .processing then
    { t' with processingStartedAt := some now }
  else if newState == .completed || newState == .failed then
    { t' with completedAt := some now }
  else t'

def updateState (db : DB) (transactionId : String) (newState : TransactionState)
    (errorMessage : Option String) (now : ℚ) : Bool × DB :=
  match db.getTxnById transactionId with
  | none => (false, db)
  | some txn =>
    if txn.state.canTransitionTo newState then
      (true, updateTransactionRow db transactionId
        (stampState newState errorMessage now))
    else (false, db)

/-- `TransactionRepository.update` (src/db/repository.py lines 290-309):
full-row update of the mutable columns. -/
def updateTransaction (db : DB) (txn : Transaction) (now : ℚ) : DB :=
  updateTransactionRow db txn.id (fun t =>
    { t with state := txn.state, amount := txn.amount,
             paymentReference := txn.paymentReference,
             ichancyReference := txn.ichancyReference,
             processingStartedAt := txn.processingStartedAt,
             completedAt := txn.completedAt,
             errorMessage := txn.errorMessage,
             retryCount := txn.retryCount,
             updatedAt := now,
             balanceBefore := txn.balanceBefore,
             balanceAfter := txn.balanceAfter })

/-- `UserRepository.update_balance` (src/db/repository.py lines
145-165): one storage transaction setting the balance and bumping both
cumulative counters. -/
def updateBalance (db : DB) (userId : Nat) (newBalance : ℚ)
    (depositDelta withdrawDelta : ℚ) (now : ℚ) : DB :=
  { db with users := db.users.map (fun u =>
      if u.id == userId then
        { u with localBalance := newBalance,
                 totalDeposited := u.totalDeposited + depositDelta,
                 totalWithdrawn := u.totalWithdrawn + withdrawDelta,
                 updatedAt := now }
      else u) }

/-- `PaymentRepository.create`. -/
def createPayment (db : DB) (p : Payment) : DB :=
  { db with payments := db.payments ++ [p] }

/-! ## External wallet client responses (src/services/ichancy_service.py) -/

/-- A JSON body as far as the client's classification logic inspects it:
either a JSON object (field values modelled as strings, with Python
truthiness = non-empty) or some non-object JSON value. -/
inductive Json
  | dict (fields : List (String × String))
  | nondict (text : String)
  deriving DecidableEq, Repr

/-- Python `data.get(k)` over the modelled JSON object. -/
def Json.get : Json → String → Option String
  | .dict fields, k => (fields.find? (fun kv => kv.1 == k)).map (fun kv => kv.2)
  | .nondict _, _ => none

/-- Python truthiness of the modelled JSON value (`if balance_result.data:`). -/
def Json.truthy : Json → Bool
  | .dict fields => !fields.isEmpty
  | .nondict text => !text.isEmpty

/-- The `IchancyResponse` dataclass.  The `raw_response` debugging echo of
the body is not modelled (nothing in the settlement logic reads it). -/
structure IchancyResponse where
  success : Bool
  data : Option Json := none
  error : Option String := none
  deriving DecidableEq, Repr

/-- A transport-level HTTP response as seen by
`IchancyService._request` after the request returned without raising:
status code, body text, and the result of `response.json()` (`none` when
the body is not parseable as JSON). -/
structure HttpResponse where
  statusCode : Nat
  text : String
  parsed : Option Json
  deriving DecidableEq, Repr

/-- Whether the parsed JSON object carries an embedded application-level
error flag (src/services/ichancy_service.py line 139):
`hasError == "yes"`, a truthy `error` field, or `status == "error"`. -/
def Json.hasErrorFlag : Json → Bool
  | .dict fields =>
      (Json.dict fields).get "hasError" == some "yes"
      || pyTruthy ((Json.dict fields).get "error")
      || (Json.dict fields).get "status" == some "error"
  | .nondict _ => false

/-- The error message extracted on a logical failure
(`data.get("msg") or data.get("error") or data.get("message", "Unknown error")`). -/
def Json.errorMsg (j : Json) : String :=
  (pyOr (j.get "msg") (pyOr (j.get "error") (some ((j.get "message").getD "Unknown error")))).getD ""

/-- Response classification of `IchancyService._request`
(src/services/ichancy_service.py lines 113-160): HTTP status ≥ 400 is a
failure carrying the raw text; a body that does not parse as JSON is a
success carrying the raw text under the key `raw`; a parsed JSON object
with an embedded error flag is a logical failure; everything else is a
success carrying the parsed data. -/
def classifyResponse (resp : HttpResponse) : IchancyResponse :=
  if resp.statusCode ≥ 400 then
    { success := false,
      error := some ("HTTP " ++ toString resp.statusCode ++ ": " ++ resp.text) }
  else
    match resp.parsed with
    | none =>
        { success := true, data := some (.dict [("raw", resp.text)]) }
    | some j =>
        match j with
        | .dict fields =>
            if (Json.dict fields).hasErrorFlag then
              { success := false, error := some ((Json.dict fields).errorMsg),
                data := some (.dict fields) }
            else
              { success := true, data := some (.dict fields) }
        | .nondict text =>
            { success := true, data := some (.nondict text) }

/-- Outcome of one call to the external wallet client as observed by the
wallet service: a returned `IchancyResponse`, or a raised exception
(timeout / connection failure after the retry executor exhausted its
attempts), carried as its message string. -/
inductive ExtCall
  | resp (r : IchancyResponse)
  | raised (e : String)
  deriving DecidableEq, Repr

/-! ## Wallet service (src/services/wallet_service.py) -/

/-- The `DepositResult` dataclass.  `ichancy_balance` is the string field
of the modelled JSON balance payload. -/
structure DepositResult where
  success : Bool
  transactionId : Option String := none
  message : String := ""
  newBalance : Option ℚ := none
  ichancyBalance : Option String := none
  error : Option String := none
  deriving DecidableEq, Repr

/-- The `WithdrawalResult` dataclass. -/
structure WithdrawalResult where
  success : Bool
  transactionId : Option String := none
  message : String := ""
  newBalance : Option ℚ := none
  error : Option String := none
  deriving DecidableEq, Repr

/-- Observable side effects of a withdrawal run beyond the store: whether
the external wallet was actually called and whether a payout Payment
record was created. -/
structure WTrace where
  extCalled : Bool
  paymentCreated : Bool
  deriving DecidableEq, Repr

/-- `payment_expiry_minutes` (WalletService.__init__). -/
def paymentExpiryMinutes : ℚ := 30

/-- Build the `Transaction(...)` dataclass instance the workflows create
(defaults from src/db/models.py). -/
def mkTransaction (freshId : String) (userId : Nat) (ty : TransactionType)
    (st : TransactionState) (amount : ℚ) (key : Option String)
    (balanceBefore : Option ℚ) (now : ℚ) : Transaction :=
  { id := freshId, userId := userId, type := ty, state := st, amount := amount,
    idempotencyKey := key, createdAt := now, updatedAt := now,
    balanceBefore := balanceBefore }

/-- Resolve the idempotency key: Python `if not idempotency_key:` falls
back to a generated key. -/
def resolveKey (idempotencyKey : Option String) (generatedKey : String) : String :=
  match idempotencyKey with
  | some s => if s.isEmpty then generatedKey else s
  | none => generatedKey

/-- `WalletService.initiate_deposit` (src/services/wallet_service.py
lines 75-135): validate the user, resolve the idempotency key, create
the PENDING transaction (raising on a duplicate key) with
`balance_before` snapshotting the current balance, then create the
PENDING payment record expiring in `payment_expiry_minutes`. -/
def initiateDeposit (db : DB) (userId : Nat) (amount : ℚ)
    (provider : PaymentProvider) (idempotencyKey : Option String)
    (generatedKey freshTxnId freshPmtId : String) (now : ℚ) :
    Except WalletError (DB × Transaction × Payment) :=
  match db.getUserById userId with
  | none => .error (.userNotFound userId)
  | some user =>
    if user.state == .blocked then
      .error (.userBlocked userId user.blockedReason)
    else
      let key := resolveKey idempotencyKey generatedKey
      let txn := mkTransaction freshTxnId userId .deposit .pending amount
        (some key) (some user.localBalance) now
      match createTransaction db txn with
      | .error e => .error e
      | .ok db1 =>
        let payment : Payment :=
          { id := freshPmtId, userId := userId, transactionId := some txn.id,
            provider := provider, state := .pending, amount := amount,
            createdAt := now, expiresAt := some (now + paymentExpiryMinutes) }
        .ok (createPayment db1 payment, txn, payment)

/-- The tail of `WalletService.complete_deposit` after the external side
succeeded or was skipped (src/services/wallet_service.py lines 301-337):
atomically credit the local balance and cumulative-deposited, then write
`balance_after` / COMPLETED into the transaction row. -/
def finishDeposit (db1 : DB) (txn : Transaction) (user : User)
    (ichancyBalance : Option String) (now : ℚ) : DepositResult × DB :=
  let newBalance := user.localBalance + txn.amount
  let db2 := updateBalance db1 user.id newBalance txn.amount 0 now
  let txn' := { txn with balanceAfter := some newBalance,
                         state := TransactionState.completed,
                         completedAt := some now }
  let db3 := updateTransaction db2 txn' now
  ({ success := true, transactionId := some txn.id,
     message := "Deposit completed successfully",
     newBalance := some newBalance, ichancyBalance := ichancyBalance }, db3)

/-- `WalletService.complete_deposit` (src/services/wallet_service.py
lines 216-352).  `ichancyDeposit` is the outcome of
`ichancy_service.deposit`, `balanceCall` the outcome of the follow-up
`get_player_balance` (both only consulted when an external linkage
exists and `deposit_to_ichancy` is set). -/
def completeDeposit (db : DB) (transactionId : String)
    (depositToIchancy : Bool) (ichancyDeposit balanceCall : ExtCall)
    (now : ℚ) : DepositResult × DB :=
  match db.getTxnById transactionId with
  | none => ({ success := false, error := some "Transaction not found" }, db)
  | some txn =>
    if txn.state != .pending then
      ({ success := false, transactionId := some transactionId,
         error := some ("Transaction in invalid state: " ++ txn.state.value) }, db)
    else
      match db.getTransactionPayment transactionId with
      | none =>
          ({ success := false, transactionId := some transactionId,
             error := some "Payment not verified" }, db)
      | some payment =>
        if payment.state != .verified then
          ({ success := false, transactionId := some transactionId,
             error := some "Payment not verified" }, db)
        else
          match db.getUserById txn.userId with
          | none => ({ success := false, error := some "User not found" }, db)
          | some user =>
            let db1 := (updateState db transactionId .processing none now).2
            if depositToIchancy && pyTruthy user.ichancyUsername then
              match ichancyDeposit with
              | .raised e =>
                  let db2 := (updateState db1 transactionId .failed (some e) now).2
                  ({ success := false, transactionId := some transactionId,
                     error := some e }, db2)
              | .resp r =>
                if !r.success then
                  let msg := "Ichancy deposit failed: " ++ pyStr r.error
                  let db2 := (updateState db1 transactionId .partiallyFailed (some msg) now).2
                  ({ success := false, transactionId := some transactionId,
                     error := some msg }, db2)
                else
                  match balanceCall with
                  | .raised e =>
                      let db2 := (updateState db1 transactionId .failed (some e) now).2
                      ({ success := false, transactionId := some transactionId,
                         error := some e }, db2)
                  | .resp br =>
                    let ib :=
                      if br.success && (match br.data with
                                        | some j => j.truthy
                                        | none => false) then
                        br.data.bind (fun j => j.get "balance")
                      else none
                    finishDeposit db1 txn user ib now
            else
              finishDeposit db1 txn user none now

/-- The tail of `WalletService.initiate_withdrawal` after the external
side succeeded or was skipped (src/services/wallet_service.py lines
461-507): debit the local balance and cumulative-withdrawn, create the
PENDING payout Payment record, and write `balance_after` / COMPLETED
into the transaction row. -/
def finishWithdrawal (db2 : DB) (txn : Transaction) (user : User)
    (provider : PaymentProvider) (phoneNumber : String) (freshPmtId : String)
    (now : ℚ) (extCalled : Bool) :
    Except WalletError WithdrawalResult × DB × WTrace :=
  let newBalance := user.localBalance - txn.amount
  let db3 := updateBalance db2 user.id newBalance 0 txn.amount now
  let payment : Payment :=
    { id := freshPmtId, userId := user.id, transactionId := some txn.id,
      provider := provider, state := .pending, amount := txn.amount,
      phoneNumber := some phoneNumber, createdAt := now }
  let db4 := createPayment db3 payment
  let txn' := { txn with balanceAfter := some newBalance,
                         state := TransactionState.completed,
                         completedAt := some now }
  let db5 := updateTransaction db4 txn' now
  (.ok { success := true, transactionId := some txn.id,
         message := "Withdrawal queued for processing",
         newBalance := some newBalance }, db5,
   { extCalled := extCalled, paymentCreated := true })

/-- `WalletService.initiate_withdrawal` (src/services/wallet_service.py
lines 368-522): validate the user and the balance (failing fast before
any durable write), create the PENDING transaction, transition to
PROCESSING, call the external debit when a linkage exists (a logical
failure or a raised exception moves the transaction to FAILED with
nothing deducted locally and no payout record created), then deduct the
balance, create the payout Payment record, and complete. -/
def initiateWithdrawal (db : DB) (userId : Nat) (amount : ℚ)
    (provider : PaymentProvider) (phoneNumber : String)
    (withdrawFromIchancy : Bool) (idempotencyKey : Option String)
    (generatedKey freshTxnId freshPmtId : String) (extOutcome : ExtCall)
    (now : ℚ) : Except WalletError WithdrawalResult × DB × WTrace :=
  match db.getUserById userId with
  | none =>
      (.error (.userNotFound userId), db,
       { extCalled := false, paymentCreated := false })
  | some user =>
    if user.state == .blocked then
      (.error (.userBlocked userId user.blockedReason), db,
       { extCalled := false, paymentCreated := false })
    else if user.localBalance < amount then
      (.error (.insufficientBalance userId amount user.localBalance), db,
       { extCalled := false, paymentCreated := false })
    else
      let key := resolveKey idempotencyKey generatedKey
      let txn := mkTransaction freshTxnId userId .withdrawal .pending amount
        (some key) (some user.localBalance) now
      match createTransaction db txn with
      | .error e =>
          (.error e, db, { extCalled := false, paymentCreated := false })
      | .ok db1 =>
        let db2 := (updateState db1 txn.id .processing none now).2
        if withdrawFromIchancy && pyTruthy user.ichancyUsername then
          match extOutcome with
          | .raised e =>
              let db3 := (updateState db2 txn.id .failed (some e) now).2
              (.ok { success := false, transactionId := some txn.id,
                     error := some e }, db3,
               { extCalled := true, paymentCreated := false })
          | .resp r =>
            if !r.success then
              let msg := "Ichancy withdrawal failed: " ++ pyStr r.error
              let db3 := (updateState db2 txn.id .failed (some msg) now).2
              (.ok { success := false, transactionId := some txn.id,
                     error := some msg }, db3,
               { extCalled := true, paymentCreated := false })
            else
              finishWithdrawal db2 txn user provider phoneNumber freshPmtId now true
        else
          finishWithdrawal db2 txn user provider phoneNumber freshPmtId now false

/-! ## Circuit breaker (src/utils/retry.py lines 20-87) -/

/-- `CircuitState` enum. -/
inductive CircuitState
  | closed
  | open'
  | halfOpen
  deriving DecidableEq, Repr, Fintype

/-- The `CircuitBreaker` dataclass: configuration plus the mutable
fields `_state`, `_failure_count`, `_last_failure_time`,
`_half_open_calls`. -/
structure CircuitBreaker where
  name : String
  failureThreshold : Nat := 5
  recoveryTimeout : ℚ := 30
  halfOpenMaxCalls : Nat := 3
  state : CircuitState := .closed
  failureCount : Nat := 0
  lastFailureTime : Option ℚ := none
  halfOpenCalls : Nat := 0
  deriving DecidableEq, Repr

/-- The `state` property (src/utils/retry.py lines 43-53): evaluated at
instant `now`, lazily transitioning OPEN to HALF_OPEN once
`recovery_timeout` has elapsed since the last failure (and resetting the
half-open trial counter).  Returns the observed state and the breaker
after the transition. -/
def CircuitBreaker.stateAt (cb : CircuitBreaker) (now : ℚ) :
    CircuitState × CircuitBreaker :=
  match cb.state, cb.lastFailureTime with
  | .open', some t =>
      if now - t ≥ cb.recoveryTimeout then
        (.halfOpen, { cb with state := .halfOpen, halfOpenCalls := 0 })
      else (.open', cb)
  | s, _ => (s, cb)

/-- `CircuitBreaker.record_success` (src/utils/retry.py lines 55-64). -/
def CircuitBreaker.recordSuccess (cb : CircuitBreaker) : CircuitBreaker :=
  match cb.state with
  | .halfOpen =>
      let calls := cb.halfOpenCalls + 1
      if calls ≥ cb.halfOpenMaxCalls then
        { cb with halfOpenCalls := calls, state := .closed, failureCount := 0 }
      else
        { cb with halfOpenCalls := calls }
  | .closed => { cb with failureCount := 0 }
  | .open' => cb

/-- `CircuitBreaker.record_failure` (src/utils/retry.py lines 66-77):
bump the consecutive-failure counter and stamp the failure instant; a
failure while HALF_OPEN reopens the breaker, and reaching
`failure_threshold` while CLOSED opens it. -/
def CircuitBreaker.recordFailure (cb : CircuitBreaker) (now : ℚ) : CircuitBreaker :=
  let cb' := { cb with failureCount := cb.failureCount + 1,
                       lastFailureTime := some now }
  match cb'.state with
  | .halfOpen => { cb' with state := .open' }
  | .closed =>
      if cb'.failureCount ≥ cb'.failureThreshold then
        { cb' with state := .open' }
      else cb'
  | .open' => cb'

/-- `CircuitBreaker.can_execute` (src/utils/retry.py lines 79-87):
query the (lazily transitioned) state; CLOSED and HALF_OPEN pass, OPEN
rejects. -/
def CircuitBreaker.canExecute (cb : CircuitBreaker) (now : ℚ) :
    Bool × CircuitBreaker :=
  match cb.stateAt now with
  | (.closed, cb') => (true, cb')
  | (.halfOpen, cb') => (true, cb')
  | (.open', cb') => (false, cb')

/-- Fold a sequence of failures (at the given instants) into the breaker. -/
def recordFailures (cb : CircuitBreaker) (ts : List ℚ) : CircuitBreaker :=
  ts.foldl (fun c t => c.recordFailure t) cb

/-- Fold `k` consecutive successes into the breaker. -/
def recordSuccesses (cb : CircuitBreaker) : Nat → CircuitBreaker
  | 0 => cb
  | k + 1 => recordSuccesses cb.recordSuccess k

/-! ## Retry executor (src/utils/retry.py lines 101-177) -/

/-- Outcome of one invocation of the wrapped operation: a returned value
or a raised retryable exception (non-retryable exceptions propagate out
of the executor untouched and are outside this model). -/
inductive AttemptOutcome
  | ok (value : String)
  | fail (e : String)
  deriving DecidableEq, Repr

/-- How a `retry_async` run ends: the operation's result, the
`NetworkException` raised when the attached breaker rejects the attempt,
or the re-raised last retryable exception after attempts are exhausted. -/
inductive RetryOutcome
  | success (value : String)
  | circuitOpenError
  | raised (e : String)
  deriving DecidableEq, Repr

/-- Observable trace of a `retry_async` run: the outcome, every
`asyncio.sleep` duration in order, the number of invocations of the
wrapped operation, and the final breaker state. -/
structure RetryTrace where
  outcome : RetryOutcome
  sleeps : List ℚ
  invocations : Nat
  breaker : Option CircuitBreaker
  deriving DecidableEq, Repr

/-- `circuit_breaker and not circuit_breaker.can_execute()`: a missing
breaker always passes. -/
def optCanExecute (cb : Option CircuitBreaker) (now : ℚ) :
    Bool × Option CircuitBreaker :=
  match cb with
  | none => (true, none)
  | some b =>
      let r := b.canExecute now
      (r.1, some r.2)

/-- Report success to the breaker when one is attached. -/
def optRecordSuccess (cb : Option CircuitBreaker) : Option CircuitBreaker :=
  cb.map (fun b => b.recordSuccess)

/-- Report failure to the breaker when one is attached. -/
def optRecordFailure (cb : Option CircuitBreaker) (now : ℚ) : Option CircuitBreaker :=
  cb.map (fun b => b.recordFailure now)

/-- The `for attempt in range(max_retries + 1)` loop of `retry_async`.
`remaining` counts the loop iterations still to run (so Python's
`attempt < max_retries` — more attempts remain — is `remaining ≠ 0`
after the current iteration is peeled off); `outcomes attempt` is what
the wrapped operation does on its `attempt`-th invocation.  Before each
attempt the breaker is consulted and an OPEN breaker aborts
immediately; a success is reported to the breaker and returned; a
retryable failure is reported to the breaker and, when attempts remain,
followed by a sleep of `currentDelay` and a retry with the delay
multiplied by `backoff`; otherwise the loop ends re-raising the last
exception. -/
def retryLoop (outcomes : Nat → AttemptOutcome) (now backoff : ℚ) :
    Nat → Nat → ℚ → Option CircuitBreaker → List ℚ → Nat → Option String →
    RetryTrace
  | 0, _, _, cb, sleeps, invocations, lastExc =>
      { outcome := .raised (lastExc.getD "None"), sleeps := sleeps,
        invocations := invocations, breaker := cb }
  | remaining + 1, attempt, currentDelay, cb, sleeps, invocations, _lastExc =>
      let checked := optCanExecute cb now
      if checked.1 then
        match outcomes attempt with
        | .ok v =>
            { outcome := .success v, sleeps := sleeps,
              invocations := invocations + 1,
              breaker := optRecordSuccess checked.2 }
        | .fail e =>
            let cb1 := optRecordFailure checked.2 now
            if remaining = 0 then
              { outcome := .raised e, sleeps := sleeps,
                invocations := invocations + 1, breaker := cb1 }
            else
              retryLoop outcomes now backoff remaining (attempt + 1)
                (currentDelay * backoff) cb1 (sleeps ++ [currentDelay])
                (invocations + 1) (some e)
      else
        { outcome := .circuitOpenError, sleeps := sleeps,
          invocations := invocations, breaker := checked.2 }

/-- `retry_async` (src/utils/retry.py lines 101-177) as a trace
function. -/
def retryAsync (outcomes : Nat → AttemptOutcome) (maxRetries : Nat)
    (delay backoff : ℚ) (cb : Option CircuitBreaker) (now : ℚ) : RetryTrace :=
  retryLoop outcomes now backoff (maxRetries + 1) 0 delay cb [] 0 none

/-! ## Store lemmas -/

theorem find?_append_of_none {α : Type} {l₁ : List α} {p : α → Bool}
    (h : l₁.find? p = none) (l₂ : List α) :
    (l₁ ++ l₂).find? p = l₂.find? p := by
  induction l₁ with
  | nil => rfl
  | cons a l ih =>
    cases hpa : p a with
    | true =>
        rw [List.find?_cons_of_pos _ hpa] at h
        exact absurd h (by simp)
    | false =>
        rw [List.find?_cons_of_neg _ (by simp [hpa])] at h
        rw [List.cons_append, List.find?_cons_of_neg _ (by simp [hpa])]
        exact ih h

theorem find?_update {α : Type} (key : α → Bool) (g : α → α)
    (hg : ∀ a, key a = true → key (g a) = true) :
    ∀ (l : List α) (x : α), l.find? key = some x →
      (l.map (fun a => if key a then g a else a)).find? key = some (g x) := by
  intro l
  induction l with
  | nil => intro x h; exact absurd h (by simp)
  | cons a l ih =>
    intro x h
    cases hka : key a with
    | true =>
        rw [List.find?_cons_of_pos _ hka] at h
        injection h with h
        subst h
        rw [List.map_cons, if_pos hka,
          List.find?_cons_of_pos _ (hg a hka)]
    | false =>
        rw [List.find?_cons_of_neg _ (by simp [hka])] at h
        rw [List.map_cons, if_neg (by simp [hka]),
          List.find?_cons_of_neg _ (by simp [hka])]
        exact ih x h

theorem stampState_id (s : TransactionState) (e : Option String) (now : ℚ)
    (t : Transaction) : (stampState s e now t).id = t.id := by
  unfold stampState
  dsimp only
  split
  · rfl
  · split <;> rfl

theorem updateTransactionRow_users (db : DB) (tid : String)
    (f : Transaction → Transaction) :
    (updateTransactionRow db tid f).users = db.users := rfl

theorem updateTransactionRow_payments (db : DB) (tid : String)
    (f : Transaction → Transaction) :
    (updateTransactionRow db tid f).payments = db.payments := rfl

theorem updateTransaction_users (db : DB) (txn : Transaction) (now : ℚ) :
    (updateTransaction db txn now).users = db.users := rfl

theorem updateTransaction_payments (db : DB) (txn : Transaction) (now : ℚ) :
    (updateTransaction db txn now).payments = db.payments := rfl

theorem updateBalance_transactions (db : DB) (uid : Nat) (nb dd wd now : ℚ) :
    (updateBalance db uid nb dd wd now).transactions = db.transactions := rfl

theorem updateBalance_payments (db : DB) (uid : Nat) (nb dd wd now : ℚ) :
    (updateBalance db uid nb dd wd now).payments = db.payments := rfl

theorem createPayment_users (db : DB) (p : Payment) :
    (createPayment db p).users = db.users := rfl

theorem createPayment_transactions (db : DB) (p : Payment) :
    (createPayment db p).transactions = db.transactions := rfl

theorem updateState_users (db : DB) (tid : String) (s : TransactionState)
    (e : Option String) (now : ℚ) :
    ((updateState db tid s e now).2).users = db.users := by
  unfold updateState
  cases db.getTxnById tid with
  | none => rfl
  | some txn =>
      dsimp only
      split <;> rfl

theorem updateState_payments (db : DB) (tid : String) (s : TransactionState)
    (e : Option String) (now : ℚ) :
    ((updateState db tid s e now).2).payments = db.payments := by
  unfold updateState
  cases db.getTxnById tid with
  | none => rfl
  | some txn =>
      dsimp only
      split <;> rfl

theorem getUserById_eq_of_users {db1 db2 : DB} (h : db1.users = db2.users)
    (uid : Nat) : db1.getUserById uid = db2.getUserById uid := by
  unfold DB.getUserById
  rw [h]

theorem getTxnById_eq_of_transactions {db1 db2 : DB}
    (h : db1.transactions = db2.transactions) (tid : String) :
    db1.getTxnById tid = db2.getTxnById tid := by
  unfold DB.getTxnById
  rw [h]

theorem getTransactionPayment_eq_of_payments {db1 db2 : DB}
    (h : db1.payments = db2.payments) (tid : String) :
    db1.getTransactionPayment tid = db2.getTransactionPayment tid := by
  unfold DB.getTransactionPayment
  rw [h]

theorem getTxnById_updateTransactionRow {db : DB} {tid : String}
    {txn : Transaction} (f : Transaction → Transaction)
    (hf : ∀ t, (f t).id = t.id) (h : db.getTxnById tid = some txn) :
    (updateTransactionRow db tid f).getTxnById tid = some (f txn) := by
  unfold DB.getTxnById at h ⊢
  unfold updateTransactionRow
  refine find?_update (fun t => t.id == tid) f ?_ db.transactions txn h
  intro a ha
  show ((f a).id == tid) = true
  rw [hf a]
  exact ha

theorem getUserById_updateBalance {db : DB} {uid : Nat} {u : User}
    (nb dd wd now : ℚ) (h : db.getUserById uid = some u) :
    (updateBalance db uid nb dd wd now).getUserById uid =
      some { u with localBalance := nb,
                    totalDeposited := u.totalDeposited + dd,
                    totalWithdrawn := u.totalWithdrawn + wd,
                    updatedAt := now } := by
  unfold DB.getUserById at h ⊢
  unfold updateBalance
  exact find?_update (fun v => v.id == uid)
    (fun v => { v with localBalance := nb,
                       totalDeposited := v.totalDeposited + dd,
                       totalWithdrawn := v.totalWithdrawn + wd,
                       updatedAt := now })
    (fun a ha => ha) db.users u h

theorem updateState_success {db : DB} {tid : String} {txn : Transaction}
    {s : TransactionState} (e : Option String) (now : ℚ)
    (h : db.getTxnById tid = some txn)
    (htr : txn.state.canTransitionTo s = true) :
    updateState db tid s e now =
      (true, updateTransactionRow db tid (stampState s e now)) := by
  unfold updateState
  rw [h]
  dsimp only
  rw [if_pos htr]

theorem updateState_failure {db : DB} {tid : String} {txn : Transaction}
    {s : TransactionState} (e : Option String) (now : ℚ)
    (h : db.getTxnById tid = some txn)
    (htr : txn.state.canTransitionTo s = false) :
    updateState db tid s e now = (false, db) := by
  unfold updateState
  rw [h]
  dsimp only
  rw [if_neg (by simp [htr])]

theorem getTxnById_updateState {db : DB} {tid : String} {txn : Transaction}
    {s : TransactionState} (e : Option String) (now : ℚ)
    (h : db.getTxnById tid = some txn)
    (htr : txn.state.canTransitionTo s = true) :
    ((updateState db tid s e now).2).getTxnById tid =
      some (stampState s e now txn) := by
  rw [updateState_success e now h htr]
  exact getTxnById_updateTransactionRow _ (stampState_id s e now) h

theorem getTxnById_updateTransaction {db : DB} {tid : String}
    {row : Transaction} (txn' : Transaction) (now : ℚ) (hid : txn'.id = tid)
    (h : db.getTxnById tid = some row) :
    (updateTransaction db txn' now).getTxnById tid =
      some { row with
             state := txn'.state, amount := txn'.amount,
             paymentReference := txn'.paymentReference,
             ichancyReference := txn'.ichancyReference,
             processingStartedAt := txn'.processingStartedAt,
             completedAt := txn'.completedAt,
             errorMessage := txn'.errorMessage,
             retryCount := txn'.retryCount,
             updatedAt := now,
             balanceBefore := txn'.balanceBefore,
             balanceAfter := txn'.balanceAfter } := by
  unfold updateTransaction
  rw [hid]
  exact getTxnById_updateTransactionRow _ (fun t => rfl) h

/-! ## Claim C1 — idempotent deposit creation -/

/-- Concrete store for exercising the duplicate-idempotency-key path:
one active user and one existing deposit transaction keyed `k`. -/
def dupUser : User := { id := 1 }

def dupTxn : Transaction :=
  { id := "t1", userId := 1, type := .deposit, amount := 100,
    idempotencyKey := some "k" }

def dupDB : DB := { users := [dupUser], transactions := [dupTxn] }

/-- C1 counterexample: a second deposit-creation request with the
idempotency key of an existing transaction does NOT return the existing
transaction to the caller — `TransactionRepository.create` raises
`DuplicateTransactionException` and `initiate_deposit` propagates it, so
the caller observes an error naming the original transaction, never the
transaction itself. -/
theorem claim_C1_counterexample :
    initiateDeposit dupDB 1 100 .manual (some "k") "gen" "t2" "p2" 0 =
      .error (.duplicateTransaction "k" "t1") := by
  rfl

/-- C1 (amended): for every deposit-creation request supplying a
(non-empty) idempotency key for which a transaction already exists, no
new transaction is created and no side effects re-execute — the
operation fails with a duplicate-transaction error identifying the first
(existing) transaction, which the caller must fetch separately. -/
theorem claim_C1 (db : DB) (userId : Nat) (amount : ℚ)
    (provider : PaymentProvider) (k gk ftid fpid : String) (now : ℚ)
    (user : User) (existing : Transaction)
    (hu : db.getUserById userId = some user)
    (hb : (user.state == .blocked) = false)
    (hk : k.isEmpty = false)
    (he : db.getTxnByIdempotencyKey k = some existing) :
    initiateDeposit db userId amount provider (some k) gk ftid fpid now =
      .error (.duplicateTransaction k existing.id) := by
  have hres : resolveKey (some k) gk = k := by
    unfold resolveKey
    simp [hk]
  have hct : createTransaction db
      (mkTransaction ftid userId .deposit .pending amount (some k)
        (some user.localBalance) now) =
      .error (.duplicateTransaction k existing.id) := by
    unfold createTransaction
    rw [if_pos (by simp [mkTransaction, pyTruthy, hk])]
    dsimp only [mkTransaction]
    rw [Option.getD_some, he]
  unfold initiateDeposit
  rw [hu]
  dsimp only
  rw [if_neg (by simp [hb]), hres, hct]

/-- Closed instance of the amended C1. -/
theorem claim_C1_witness :
    initiateDeposit dupDB 1 250 .syriatelCash (some "k") "g2" "t3" "p3" 7 =
      .error (.duplicateTransaction "k" "t1") := by
  exact claim_C1 dupDB 1 250 .syriatelCash "k" "g2" "t3" "p3" 7 dupUser dupTxn
    (by decide) (by decide) (by decide) (by decide)

/-! ## Claim C2 — illegal state transitions are rejected -/

/-- Concrete store for exercising an illegal transition: one transaction
sitting in PROCESSING. -/
def procTxn : Transaction :=
  { id := "t1", userId := 1, type := .withdrawal, state := .processing,
    amount := 100 }

def procDB : DB := { users := [dupUser], transactions := [procTxn] }

/-- C2: the legal-transition table is exactly
PENDING→PROCESSING|CANCELLED, PROCESSING→COMPLETED|FAILED|PARTIALLY_FAILED,
COMPLETED→REVERSED, FAILED→PENDING, nothing out of PARTIALLY_FAILED,
CANCELLED, REVERSED; any transition outside it makes `update_state`
fail (returning `false`) with the store untouched, so the caller
observes the transaction unchanged; in particular PROCESSING→CANCELLED
is rejected and the transaction remains in PROCESSING. -/
theorem claim_C2 (db : DB) (tid : String) (txn : Transaction)
    (s' : TransactionState) (e : Option String) (now : ℚ)
    (h : db.getTxnById tid = some txn) :
    (∀ s t : TransactionState, s.canTransitionTo t = true ↔
        (s, t) ∈ ([(.pending, .processing), (.pending, .cancelled),
                   (.processing, .completed), (.processing, .failed),
                   (.processing, .partiallyFailed),
                   (.completed, .reversed),
                   (.failed, .pending)] :
          List (TransactionState × TransactionState)))
    ∧ (txn.state.canTransitionTo s' = false →
        updateState db tid s' e now = (false, db))
    ∧ (txn.state = .processing →
        updateState db tid .cancelled e now = (false, db)) := by
  refine ⟨by decide, ?_, ?_⟩
  · intro htr
    exact updateState_failure e now h htr
  · intro hs
    exact updateState_failure e now h (by rw [hs]; decide)

/-- Closed instance of C2: cancelling a PROCESSING transaction is
rejected and the store is unchanged (so the transaction is still in
PROCESSING). -/
theorem claim_C2_witness :
    updateState procDB "t1" .cancelled none 3 = (false, procDB)
    ∧ procDB.getTxnById "t1" = some procTxn
    ∧ procTxn.state = .processing := by
  refine ⟨?_, by decide, rfl⟩
  exact (claim_C2 procDB "t1" procTxn .cancelled none 3 (by decide)).2.2 rfl

/-! ## Claim C5 — insufficient withdrawal balance fails fast -/

/-- Concrete store for the insufficient-balance scenario of the spec:
an account holding 20000. -/
def poorUser : User := { id := 7, localBalance := 20000 }

def poorDB : DB := { users := [poorUser] }

/-- C5: a withdrawal request whose amount exceeds the current local
balance is rejected with an insufficient-balance error before any
durable mutation — the store is returned unchanged (no Transaction row,
no PROCESSING state) and the external wallet is never called. -/
theorem claim_C5 (db : DB) (userId : Nat) (amount : ℚ)
    (provider : PaymentProvider) (phone : String) (wfi : Bool)
    (idemKey : Option String) (gk ftid fpid : String) (ext : ExtCall)
    (now : ℚ) (user : User)
    (hu : db.getUserById userId = some user)
    (hb : (user.state == .blocked) = false)
    (hlt : user.localBalance < amount) :
    initiateWithdrawal db userId amount provider phone wfi idemKey gk ftid
        fpid ext now =
      (.error (.insufficientBalance userId amount user.localBalance), db,
       { extCalled := false, paymentCreated := false }) := by
  unfold initiateWithdrawal
  rw [hu]
  dsimp only
  rw [if_neg (by simp [hb]), if_pos hlt]

/-- Closed instance of C5: balance 20000, withdrawal of 25000. -/
theorem claim_C5_witness :
    initiateWithdrawal poorDB 7 25000 .shamCash "0999" true none "g" "t"
        "p" (.resp { success := true }) 0 =
      (.error (.insufficientBalance 7 25000 20000), poorDB,
       { extCalled := false, paymentCreated := false }) := by
  exact claim_C5 poorDB 7 25000 .shamCash "0999" true none "g" "t" "p"
    (.resp { success := true }) 0 poorUser (by decide) (by decide) (by decide)

/-! ## Claim C10 — malformed remote responses classify as success -/

/-- C10: for an external-wallet response whose HTTP status is below 400,
a body that is not parseable as JSON is classified as a success carrying
the raw text under the key `raw`; and a parsed body yields a logical
failure exactly when it is a JSON object carrying an embedded error flag
(`hasError = "yes"`, a truthy `error` field, or `status = "error"`). -/
theorem claim_C10 (resp : HttpResponse) (h400 : resp.statusCode < 400) :
    (resp.parsed = none →
      classifyResponse resp =
        { success := true, data := some (.dict [("raw", resp.text)]),
          error := none })
    ∧ (∀ j : Json, resp.parsed = some j →
        ((classifyResponse resp).success = false ↔ j.hasErrorFlag = true)) := by
  constructor
  · intro hp
    unfold classifyResponse
    rw [if_neg (by omega), hp]
  · intro j hp
    unfold classifyResponse
    rw [if_neg (by omega), hp]
    cases j with
    | dict fields =>
        dsimp only
        cases hflag : (Json.dict fields).hasErrorFlag <;> simp [hflag]
    | nondict text =>
        simp [Json.hasErrorFlag]

/-- A status-200 response whose body is not JSON. -/
def respRaw : HttpResponse := { statusCode := 200, text := "oops", parsed := none }

/-- A status-200 response whose body parses to an object flagging
`hasError = "yes"`. -/
def respFlagged : HttpResponse :=
  { statusCode := 200, text := "e", parsed := some (.dict [("hasError", "yes")]) }

/-- Closed instance of C10: status 200 with the non-JSON body `oops`
comes back as a success carrying the raw text; status 200 with a parsed
object flagging `hasError = "yes"` comes back as a logical failure. -/
theorem claim_C10_witness :
    classifyResponse respRaw =
      { success := true, data := some (.dict [("raw", "oops")]), error := none }
    ∧ ((classifyResponse respFlagged).success = false ↔
        (Json.dict [("hasError", "yes")]).hasErrorFlag = true) := by
  constructor
  · exact (claim_C10 respRaw (by decide)).1 rfl
  · exact (claim_C10 respFlagged (by decide)).2 (.dict [("hasError", "yes")]) rfl

/-! ## Claim C3 — failed external credit leaves PARTIALLY_FAILED -/

/-- C3: completing a deposit on an account with an external-wallet
linkage when the external credit call returns a logical failure ends
with the transaction in PARTIALLY_FAILED carrying the remote failure
reason in its error detail, a failure result to the caller, and the
local users table (hence the balance) untouched. -/
theorem claim_C3 (db : DB) (tid : String) (txn : Transaction)
    (payment : Payment) (user : User) (r : IchancyResponse) (bal : ExtCall)
    (now : ℚ)
    (ht : db.getTxnById tid = some txn)
    (hst : txn.state = .pending)
    (hp : db.getTransactionPayment tid = some payment)
    (hpv : payment.state = .verified)
    (hu : db.getUserById txn.userId = some user)
    (hlink : pyTruthy user.ichancyUsername = true)
    (hfail : r.success = false) :
    (completeDeposit db tid true (.resp r) bal now).1 =
      { success := false, transactionId := some tid,
        error := some ("Ichancy deposit failed: " ++ pyStr r.error) }
    ∧ (∃ final : Transaction,
        ((completeDeposit db tid true (.resp r) bal now).2).getTxnById tid =
          some final
        ∧ final.state = .partiallyFailed
        ∧ final.errorMessage =
            some ("Ichancy deposit failed: " ++ pyStr r.error))
    ∧ ((completeDeposit db tid true (.resp r) bal now).2).users = db.users := by
  have hmain : completeDeposit db tid true (.resp r) bal now =
      ({ success := false, transactionId := some tid,
         error := some ("Ichancy deposit failed: " ++ pyStr r.error) },
       (updateState (updateState db tid .processing none now).2 tid
          .partiallyFailed
          (some ("Ichancy deposit failed: " ++ pyStr r.error)) now).2) := by
    unfold completeDeposit
    rw [ht]
    dsimp only
    rw [if_neg (by simp [hst]), hp]
    dsimp only
    rw [if_neg (by simp [hpv]), hu]
    dsimp only
    rw [if_pos (by simp [hlink])]
    rw [if_pos (by simp [hfail])]
  have h1 : ((updateState db tid .processing none now).2).getTxnById tid =
      some (stampState .processing none now txn) :=
    getTxnById_updateState none now ht (by rw [hst]; decide)
  have hpstate : (stampState .processing none now txn).state = .processing := rfl
  have h2 : ((updateState (updateState db tid .processing none now).2 tid
      .partiallyFailed
      (some ("Ichancy deposit failed: " ++ pyStr r.error)) now).2).getTxnById tid =
      some (stampState .partiallyFailed
        (some ("Ichancy deposit failed: " ++ pyStr r.error)) now
        (stampState .processing none now txn)) :=
    getTxnById_updateState _ now h1 (by rw [hpstate]; decide)
  rw [hmain]
  refine ⟨rfl, ⟨stampState .partiallyFailed
      (some ("Ichancy deposit failed: " ++ pyStr r.error)) now
      (stampState .processing none now txn), h2, rfl, rfl⟩, ?_⟩
  rw [updateState_users, updateState_users]

/-- Concrete store for the C3 scenario of the spec: an externally
linked account, a PENDING deposit transaction of 5000 with a VERIFIED
payment. -/
def linkUser : User :=
  { id := 2, ichancyUsername := some "pl", localBalance := 1000 }

def depTxn : Transaction :=
  { id := "t1", userId := 2, type := .deposit, amount := 5000,
    balanceBefore := some 1000 }

def depPayment : Payment :=
  { id := "p1", userId := 2, transactionId := some "t1", state := .verified,
    amount := 5000 }

def depDB : DB :=
  { users := [linkUser], transactions := [depTxn], payments := [depPayment] }

/-- The logical failure the remote wallet reports in the C3 scenario. -/
def remoteFail : IchancyResponse :=
  { success := false, error := some "limit exceeded" }

/-- Closed instance of C3: deposit of 5000 on the linked account with a
remote logical failure ends PARTIALLY_FAILED, error detail populated,
users table unchanged. -/
theorem claim_C3_witness :
    (completeDeposit depDB "t1" true (.resp remoteFail)
        (.resp { success := true }) 9).1 =
      { success := false, transactionId := some "t1",
        error := some ("Ichancy deposit failed: " ++ pyStr remoteFail.error) }
    ∧ (∃ final : Transaction,
        ((completeDeposit depDB "t1" true (.resp remoteFail)
            (.resp { success := true }) 9).2).getTxnById "t1" = some final
        ∧ final.state = .partiallyFailed
        ∧ final.errorMessage =
            some ("Ichancy deposit failed: " ++ pyStr remoteFail.error))
    ∧ ((completeDeposit depDB "t1" true (.resp remoteFail)
          (.resp { success := true }) 9).2).users = depDB.users := by
  exact claim_C3 depDB "t1" depTxn depPayment linkUser remoteFail
    (.resp { success := true }) 9 (by decide) rfl (by decide) rfl (by decide)
    (by decide) rfl

/-! ## Claim C6 — successful unlinked deposit completion -/

/-- C6: completing a deposit on an account with no external-wallet
linkage and a verified payment succeeds: the transaction reaches
COMPLETED; the local balance and the transaction's `balance_after` both
become `balance_before + amount`; and the single atomic
`update_balance` write also increments cumulative `total_deposited` by
the amount (the user-record conclusion below is exactly one
`updateBalance` application to the prior record). -/
theorem claim_C6 (db : DB) (tid : String) (txn : Transaction)
    (payment : Payment) (user : User) (d : Bool) (extd extb : ExtCall)
    (now : ℚ)
    (ht : db.getTxnById tid = some txn)
    (hst : txn.state = .pending)
    (hp : db.getTransactionPayment tid = some payment)
    (hpv : payment.state = .verified)
    (hu : db.getUserById txn.userId = some user)
    (hlink : user.ichancyUsername = none)
    (hbb : txn.balanceBefore = some user.localBalance) :
    (completeDeposit db tid d extd extb now).1.success = true
    ∧ (completeDeposit db tid d extd extb now).1.newBalance =
        some (user.localBalance + txn.amount)
    ∧ ((completeDeposit db tid d extd extb now).2).getUserById txn.userId =
        some { user with
               localBalance := user.localBalance + txn.amount,
               totalDeposited := user.totalDeposited + txn.amount,
               updatedAt := now }
    ∧ (∃ final : Transaction,
        ((completeDeposit db tid d extd extb now).2).getTxnById tid =
          some final
        ∧ final.state = .completed
        ∧ final.balanceAfter = some (user.localBalance + txn.amount)
        ∧ final.balanceAfter =
            txn.balanceBefore.map (fun b => b + txn.amount)) := by
  have htid : txn.id = tid := by
    have ht0 : db.transactions.find? (fun t => t.id == tid) = some txn := ht
    have h' := List.find?_some ht0
    simpa using h'
  have huid : user.id = txn.userId := by
    have hu0 : db.users.find? (fun u => u.id == txn.userId) = some user := hu
    have h' := List.find?_some hu0
    simpa using h'
  have hmain : completeDeposit db tid d extd extb now =
      finishDeposit (updateState db tid .processing none now).2 txn user
        none now := by
    unfold completeDeposit
    rw [ht]
    dsimp only
    rw [if_neg (by simp [hst]), hp]
    dsimp only
    rw [if_neg (by simp [hpv]), hu]
    dsimp only
    rw [if_neg (by simp [hlink, pyTruthy])]
  have h1 : ((updateState db tid .processing none now).2).getTxnById tid =
      some (stampState .processing none now txn) :=
    getTxnById_updateState none now ht (by rw [hst]; decide)
  have hu1 : ((updateState db tid .processing none now).2).getUserById user.id =
      some user := by
    rw [getUserById_eq_of_users (updateState_users db tid .processing none now),
      huid, hu]
  have h2 : (updateBalance (updateState db tid .processing none now).2 user.id
      (user.localBalance + txn.amount) txn.amount 0 now).getUserById user.id =
      some { user with
             localBalance := user.localBalance + txn.amount,
             totalDeposited := user.totalDeposited + txn.amount,
             totalWithdrawn := user.totalWithdrawn + 0,
             updatedAt := now } :=
    getUserById_updateBalance (user.localBalance + txn.amount) txn.amount 0
      now hu1
  have h3 : (updateBalance (updateState db tid .processing none now).2 user.id
      (user.localBalance + txn.amount) txn.amount 0 now).getTxnById tid =
      some (stampState .processing none now txn) := by
    rw [getTxnById_eq_of_transactions
      (updateBalance_transactions _ user.id _ txn.amount 0 now), h1]
  have h4 := getTxnById_updateTransaction
    { txn with balanceAfter := some (user.localBalance + txn.amount),
               state := TransactionState.completed, completedAt := some now }
    now htid h3
  rw [hmain]
  unfold finishDeposit
  dsimp only
  refine ⟨rfl, rfl, ?_, ?_⟩
  · rw [getUserById_eq_of_users
      (updateTransaction_users _ _ _) txn.userId, ← huid, h2]
    simp
  · refine ⟨_, h4, rfl, rfl, ?_⟩
    rw [hbb]
    rfl

/-- An unlinked account with balance 0 for the C6 scenario of the
spec. -/
def plainUser : User := { id := 3 }

def plainTxn : Transaction :=
  { id := "t1", userId := 3, type := .deposit, amount := 10000,
    balanceBefore := some 0 }

def plainPayment : Payment :=
  { id := "p1", userId := 3, transactionId := some "t1", state := .verified,
    amount := 10000 }

def plainDB : DB :=
  { users := [plainUser], transactions := [plainTxn],
    payments := [plainPayment] }

/-- Closed instance of C6: account with balance 0 and no linkage,
deposit of 10000 → COMPLETED with `balance_after` 10000 and
`total_deposited` incremented by 10000. -/
theorem claim_C6_witness :
    (completeDeposit plainDB "t1" true (.resp { success := true })
        (.resp { success := true }) 4).1.success = true
    ∧ (completeDeposit plainDB "t1" true (.resp { success := true })
        (.resp { success := true }) 4).1.newBalance = some (0 + 10000)
    ∧ ((completeDeposit plainDB "t1" true (.resp { success := true })
        (.resp { success := true }) 4).2).getUserById 3 =
        some { plainUser with localBalance := 0 + 10000,
                              totalDeposited := 0 + 10000,
                              updatedAt := 4 }
    ∧ (∃ final : Transaction,
        ((completeDeposit plainDB "t1" true (.resp { success := true })
            (.resp { success := true }) 4).2).getTxnById "t1" = some final
        ∧ final.state = .completed
        ∧ final.balanceAfter = some (0 + 10000)
        ∧ final.balanceAfter =
            plainTxn.balanceBefore.map (fun b => b + plainTxn.amount)) := by
  have h := claim_C6 plainDB "t1" plainTxn plainPayment plainUser true
    (.resp { success := true }) (.resp { success := true }) 4
    (by decide) rfl (by decide) rfl (by decide) rfl (by decide)
  exact h

/-! ## Claim C4 — failed external debit leaves FAILED, nothing deducted -/

/-- Whether an external call outcome is a failure as the withdrawal flow
sees it: a response with `success = False`, or a raised exception (e.g.
a timeout surviving all retries). -/
def ExtCall.fails : ExtCall → Bool
  | .resp r => !r.success
  | .raised _ => true

theorem failChainTxn (db1 : DB) (txn0 : Transaction) (ftid : String)
    (msg : Option String) (now : ℚ)
    (hB : db1.getTxnById ftid = some txn0) (hpend : txn0.state = .pending) :
    ((updateState (updateState db1 ftid .processing none now).2 ftid .failed
        msg now).2).getTxnById ftid =
      some (stampState .failed msg now
        (stampState .processing none now txn0)) := by
  have h1 : ((updateState db1 ftid .processing none now).2).getTxnById ftid =
      some (stampState .processing none now txn0) :=
    getTxnById_updateState none now hB (by rw [hpend]; rfl)
  exact getTxnById_updateState msg now h1 rfl

/-- C4: a withdrawal whose external debit call fails — logically or by
raised exception — before any local mutation ends with the transaction
in FAILED (not PARTIALLY_FAILED), the users table (hence the local
balance) unchanged, and no payout Payment record ever created. -/
theorem claim_C4 (db : DB) (userId : Nat) (amount : ℚ)
    (provider : PaymentProvider) (phone : String) (idemKey : Option String)
    (gk ftid fpid : String) (ext : ExtCall) (now : ℚ) (user : User)
    (hu : db.getUserById userId = some user)
    (hb : (user.state == .blocked) = false)
    (hge : ¬ user.localBalance < amount)
    (hlink : pyTruthy user.ichancyUsername = true)
    (hfresh : db.getTxnById ftid = none)
    (hkey : db.getTxnByIdempotencyKey (resolveKey idemKey gk) = none)
    (hfail : ext.fails = true) :
    (∃ res : WithdrawalResult,
      (initiateWithdrawal db userId amount provider phone true idemKey gk
          ftid fpid ext now).1 = .ok res
      ∧ res.success = false)
    ∧ (∃ final : Transaction,
        ((initiateWithdrawal db userId amount provider phone true idemKey gk
            ftid fpid ext now).2.1).getTxnById ftid = some final
        ∧ final.state = .failed)
    ∧ ((initiateWithdrawal db userId amount provider phone true idemKey gk
          ftid fpid ext now).2.1).users = db.users
    ∧ ((initiateWithdrawal db userId amount provider phone true idemKey gk
          ftid fpid ext now).2.1).payments = db.payments
    ∧ ((initiateWithdrawal db userId amount provider phone true idemKey gk
          ftid fpid ext now).2.2).paymentCreated = false := by
  have hct : createTransaction db
      (mkTransaction ftid userId .withdrawal .pending amount
        (some (resolveKey idemKey gk)) (some user.localBalance) now) =
      .ok { db with transactions := db.transactions ++
              [mkTransaction ftid userId .withdrawal .pending amount
                (some (resolveKey idemKey gk)) (some user.localBalance) now] } := by
    unfold createTransaction
    cases hpt : pyTruthy (mkTransaction ftid userId .withdrawal .pending amount
        (some (resolveKey idemKey gk)) (some user.localBalance) now).idempotencyKey with
    | false => rw [if_neg (by simp)]
    | true =>
        rw [if_pos rfl]
        have hgd : (mkTransaction ftid userId .withdrawal .pending amount
            (some (resolveKey idemKey gk)) (some user.localBalance)
            now).idempotencyKey.getD "" = resolveKey idemKey gk := rfl
        rw [hgd, hkey]
  have hB : ({ db with transactions := db.transactions ++
      [mkTransaction ftid userId .withdrawal .pending amount
        (some (resolveKey idemKey gk)) (some user.localBalance) now] } :
      DB).getTxnById ftid =
      some (mkTransaction ftid userId .withdrawal .pending amount
        (some (resolveKey idemKey gk)) (some user.localBalance) now) := by
    show (db.transactions ++
      [mkTransaction ftid userId .withdrawal .pending amount
        (some (resolveKey idemKey gk)) (some user.localBalance)
        now]).find? (fun t => t.id == ftid) = _
    rw [find?_append_of_none hfresh]
    exact List.find?_cons_of_pos _ (by simp [mkTransaction])
  cases ext with
  | raised e =>
    have hmain : initiateWithdrawal db userId amount provider phone true
        idemKey gk ftid fpid (.raised e) now =
        (.ok { success := false, transactionId := some ftid,
               error := some e },
         (updateState (updateState { db with transactions :=
              db.transactions ++
              [mkTransaction ftid userId .withdrawal .pending amount
                (some (resolveKey idemKey gk)) (some user.localBalance) now] }
            ftid .processing none now).2 ftid .failed (some e) now).2,
         { extCalled := true, paymentCreated := false }) := by
      unfold initiateWithdrawal
      rw [hu]
      dsimp only
      rw [if_neg (by simp [hb]), if_neg hge, hct]
      dsimp only
      rw [if_pos (by simp [hlink])]
      rfl
    rw [hmain]
    refine ⟨⟨_, rfl, rfl⟩,
      ⟨_, failChainTxn _ _ ftid (some e) now hB rfl, rfl⟩, ?_, ?_, rfl⟩
    · rw [updateState_users, updateState_users]
    · rw [updateState_payments, updateState_payments]
  | resp r =>
    have hr : r.success = false := by
      have h' := hfail
      simp [ExtCall.fails] at h'
      exact h'
    have hmain : initiateWithdrawal db userId amount provider phone true
        idemKey gk ftid fpid (.resp r) now =
        (.ok { success := false, transactionId := some ftid,
               error := some ("Ichancy withdrawal failed: " ++ pyStr r.error) },
         (updateState (updateState { db with transactions :=
              db.transactions ++
              [mkTransaction ftid userId .withdrawal .pending amount
                (some (resolveKey idemKey gk)) (some user.localBalance) now] }
            ftid .processing none now).2 ftid .failed
            (some ("Ichancy withdrawal failed: " ++ pyStr r.error)) now).2,
         { extCalled := true, paymentCreated := false }) := by
      unfold initiateWithdrawal
      rw [hu]
      dsimp only
      rw [if_neg (by simp [hb]), if_neg hge, hct]
      dsimp only
      rw [if_pos (by simp [hlink])]
      rw [if_pos (by simp [hr])]
      rfl
    rw [hmain]
    refine ⟨⟨_, rfl, rfl⟩,
      ⟨_, failChainTxn _ _ ftid _ now hB rfl, rfl⟩, ?_, ?_, rfl⟩
    · rw [updateState_users, updateState_users]
    · rw [updateState_payments, updateState_payments]

/-- The C4 scenario account of the spec: balance 50000, externally
linked. -/
def richUser : User :=
  { id := 4, ichancyUsername := some "pl4", localBalance := 50000 }

def richDB : DB := { users := [richUser] }

/-- Closed instance of C4: withdrawal of 10000 whose external debit
times out after all retries → FAILED, users table (balance 50000)
unchanged, no Payment record. -/
theorem claim_C4_witness :
    (∃ res : WithdrawalResult,
      (initiateWithdrawal richDB 4 10000 .syriatelCash "0988" true none "g"
          "t" "p" (.raised "timeout") 6).1 = .ok res
      ∧ res.success = false)
    ∧ (∃ final : Transaction,
        ((initiateWithdrawal richDB 4 10000 .syriatelCash "0988" true none
            "g" "t" "p" (.raised "timeout") 6).2.1).getTxnById "t" = some final
        ∧ final.state = .failed)
    ∧ ((initiateWithdrawal richDB 4 10000 .syriatelCash "0988" true none "g"
          "t" "p" (.raised "timeout") 6).2.1).users = richDB.users
    ∧ ((initiateWithdrawal richDB 4 10000 .syriatelCash "0988" true none "g"
          "t" "p" (.raised "timeout") 6).2.1).payments = richDB.payments
    ∧ ((initiateWithdrawal richDB 4 10000 .syriatelCash "0988" true none "g"
          "t" "p" (.raised "timeout") 6).2.2).paymentCreated = false := by
  exact claim_C4 richDB 4 10000 .syriatelCash "0988" none "g" "t" "p"
    (.raised "timeout") 6 richUser (by decide) (by decide) (by decide)
    (by decide) (by decide) (by decide) (by decide)

/-! ## Claims C7 and C8 — circuit breaker -/

theorem recordFailure_closed_eq (cb : CircuitBreaker) (a : ℚ)
    (hclosed : cb.state = .closed) :
    cb.recordFailure a =
      (if cb.failureCount + 1 ≥ cb.failureThreshold then
         { cb with failureCount := cb.failureCount + 1,
                   lastFailureTime := some a, state := .open' }
       else
         { cb with failureCount := cb.failureCount + 1,
                   lastFailureTime := some a }) := by
  unfold CircuitBreaker.recordFailure
  dsimp only
  rw [hclosed]

theorem recordFailures_closed (ts : List ℚ) : ∀ cb : CircuitBreaker,
    cb.state = .closed → cb.failureCount + ts.length = cb.failureThreshold →
    ts ≠ [] →
    (recordFailures cb ts).state = .open'
    ∧ (recordFailures cb ts).lastFailureTime = ts.getLast? := by
  induction ts with
  | nil => intro cb _ _ hne; exact absurd rfl hne
  | cons a l ih =>
    intro cb hclosed hcount _
    have hrf := recordFailure_closed_eq cb a hclosed
    cases l with
    | nil =>
        have hge : cb.failureCount + 1 ≥ cb.failureThreshold := by
          simp only [List.length_cons, List.length_nil] at hcount
          omega
        have hstep : recordFailures cb [a] = cb.recordFailure a := rfl
        rw [hstep, hrf, if_pos hge]
        exact ⟨rfl, rfl⟩
    | cons b l' =>
        have hlt : ¬ cb.failureCount + 1 ≥ cb.failureThreshold := by
          simp only [List.length_cons] at hcount
          omega
        have hstep : recordFailures cb (a :: b :: l') =
            recordFailures (cb.recordFailure a) (b :: l') := rfl
        rw [hstep, hrf, if_neg hlt]
        have hres := ih { cb with failureCount := cb.failureCount + 1,
                                  lastFailureTime := some a }
          hclosed
          (by simp only [List.length_cons] at hcount ⊢; omega)
          (by simp)
        rw [List.getLast?_cons_cons]
        exact hres

/-- C7: a run of `failure_threshold` consecutive failures while CLOSED
flips the breaker to OPEN recording the (last) failure timestamp;
while OPEN and within `recovery_timeout` of the last failure,
`can_execute` rejects every call; once `recovery_timeout` has elapsed,
the next state query transitions the breaker to HALF_OPEN. -/
theorem claim_C7 (cb : CircuitBreaker) (ts : List ℚ) (now t : ℚ) :
    (cb.state = .closed → cb.failureCount = 0 →
      ts.length = cb.failureThreshold → ts ≠ [] →
      (recordFailures cb ts).state = .open'
      ∧ (recordFailures cb ts).lastFailureTime = ts.getLast?)
    ∧ (cb.state = .open' → cb.lastFailureTime = some t →
        now - t < cb.recoveryTimeout → (cb.canExecute now).1 = false)
    ∧ (cb.state = .open' → cb.lastFailureTime = some t →
        now - t ≥ cb.recoveryTimeout →
        (cb.stateAt now).1 = .halfOpen
        ∧ ((cb.stateAt now).2).state = .halfOpen) := by
  refine ⟨?_, ?_, ?_⟩
  · intro hclosed hzero hlen hne
    exact recordFailures_closed ts cb hclosed (by omega) hne
  · intro hopen hlast hlt
    unfold CircuitBreaker.canExecute CircuitBreaker.stateAt
    rw [hopen, hlast]
    dsimp only
    rw [if_neg (not_le.mpr hlt)]
  · intro hopen hlast hge
    unfold CircuitBreaker.stateAt
    rw [hopen, hlast]
    dsimp only
    rw [if_pos hge]
    exact ⟨rfl, rfl⟩

/-- A fresh breaker with the external wallet client's recommended
parameters (5 failures to open, 60-second recovery). -/
def cbClosed : CircuitBreaker :=
  { name := "ichancy", failureThreshold := 5, recoveryTimeout := 60 }

/-- The same breaker after it opened at instant 5. -/
def cbOpen : CircuitBreaker :=
  { name := "ichancy", failureThreshold := 5, recoveryTimeout := 60,
    state := .open', failureCount := 5, lastFailureTime := some 5 }

/-- Closed instance of C7: five consecutive failures open the breaker
stamping the last failure instant; at instant 30 (25 seconds after the
failure) calls are rejected; at instant 65 the next state query moves
the breaker to HALF_OPEN. -/
theorem claim_C7_witness :
    ((recordFailures cbClosed [1, 2, 3, 4, 5]).state = .open'
      ∧ (recordFailures cbClosed [1, 2, 3, 4, 5]).lastFailureTime =
          [(1 : ℚ), 2, 3, 4, 5].getLast?)
    ∧ (cbOpen.canExecute 30).1 = false
    ∧ ((cbOpen.stateAt 65).1 = .halfOpen
        ∧ ((cbOpen.stateAt 65).2).state = .halfOpen) := by
  refine ⟨?_, ?_, ?_⟩
  · exact (claim_C7 cbClosed [1, 2, 3, 4, 5] 0 0).1 rfl rfl (by decide)
      (by decide)
  · exact (claim_C7 cbOpen [] 30 5).2.1 rfl rfl (by norm_num [cbOpen])
  · exact (claim_C7 cbOpen [] 65 5).2.2 rfl rfl (by norm_num [cbOpen])

theorem recordSuccess_halfOpen_eq (cb : CircuitBreaker)
    (hhalf : cb.state = .halfOpen) :
    cb.recordSuccess =
      (if cb.halfOpenCalls + 1 ≥ cb.halfOpenMaxCalls then
         { cb with halfOpenCalls := cb.halfOpenCalls + 1,
                   state := .closed, failureCount := 0 }
       else
         { cb with halfOpenCalls := cb.halfOpenCalls + 1 }) := by
  unfold CircuitBreaker.recordSuccess
  dsimp only
  rw [hhalf]

theorem recordSuccesses_closed : ∀ (k : Nat) (cb : CircuitBreaker),
    cb.state = .closed → cb.failureCount = 0 →
    (recordSuccesses cb k).state = .closed
    ∧ (recordSuccesses cb k).failureCount = 0 := by
  intro k
  induction k with
  | zero => intro cb hc hf; exact ⟨hc, hf⟩
  | succ k ih =>
    intro cb hc hf
    have hrs : cb.recordSuccess = { cb with failureCount := 0 } := by
      unfold CircuitBreaker.recordSuccess
      dsimp only
      rw [hc]
    have hstep : recordSuccesses cb (k + 1) =
        recordSuccesses cb.recordSuccess k := rfl
    rw [hstep, hrs]
    exact ih { cb with failureCount := 0 } hc rfl

theorem recordSuccesses_halfOpen_lt : ∀ (k : Nat) (cb : CircuitBreaker),
    cb.state = .halfOpen → cb.halfOpenCalls + k < cb.halfOpenMaxCalls →
    (recordSuccesses cb k).state = .halfOpen
    ∧ (recordSuccesses cb k).halfOpenCalls = cb.halfOpenCalls + k := by
  intro k
  induction k with
  | zero => intro cb hh _; exact ⟨hh, rfl⟩
  | succ k ih =>
    intro cb hh hlt
    have hnot : ¬ cb.halfOpenCalls + 1 ≥ cb.halfOpenMaxCalls := by omega
    have hstep : recordSuccesses cb (k + 1) =
        recordSuccesses cb.recordSuccess k := rfl
    rw [hstep, recordSuccess_halfOpen_eq cb hh, if_neg hnot]
    have hres := ih { cb with halfOpenCalls := cb.halfOpenCalls + 1 } hh
      (by dsimp only; omega)
    refine ⟨hres.1, ?_⟩
    rw [hres.2]
    dsimp only
    omega

theorem recordSuccesses_halfOpen_ge : ∀ (k : Nat) (cb : CircuitBreaker),
    cb.state = .halfOpen → 1 ≤ k →
    cb.halfOpenCalls + k ≥ cb.halfOpenMaxCalls →
    (recordSuccesses cb k).state = .closed
    ∧ (recordSuccesses cb k).failureCount = 0 := by
  intro k
  induction k with
  | zero => intro cb _ h1 _; exact absurd h1 (by omega)
  | succ k ih =>
    intro cb hh _ hge
    have hstep : recordSuccesses cb (k + 1) =
        recordSuccesses cb.recordSuccess k := rfl
    rw [hstep, recordSuccess_halfOpen_eq cb hh]
    by_cases hc : cb.halfOpenCalls + 1 ≥ cb.halfOpenMaxCalls
    · rw [if_pos hc]
      exact recordSuccesses_closed k _ rfl rfl
    · rw [if_neg hc]
      exact ih { cb with halfOpenCalls := cb.halfOpenCalls + 1 } hh
        (by omega) (by dsimp only; omega)

/-- C8: while HALF_OPEN trial calls pass `can_execute`; any single
failure reopens the breaker (OPEN) and resets the failure timer to the
failing instant; staying HALF_OPEN after k recorded successes forces
k < `half_open_max_calls` plus the trial counter (so at most
`half_open_max_calls` trial calls are recorded while HALF_OPEN); and
accumulating `half_open_max_calls` consecutive successes closes the
breaker and resets the consecutive-failure counter to zero. -/
theorem claim_C8 (cb : CircuitBreaker) (k : Nat) (now : ℚ) :
    (cb.state = .halfOpen → (cb.canExecute now).1 = true)
    ∧ (cb.state = .halfOpen →
        (cb.recordFailure now).state = .open'
        ∧ (cb.recordFailure now).lastFailureTime = some now)
    ∧ (cb.state = .halfOpen →
        cb.halfOpenCalls + k < cb.halfOpenMaxCalls →
        (recordSuccesses cb k).state = .halfOpen
        ∧ (recordSuccesses cb k).halfOpenCalls = cb.halfOpenCalls + k)
    ∧ (cb.state = .halfOpen → 1 ≤ k →
        cb.halfOpenCalls + k ≥ cb.halfOpenMaxCalls →
        (recordSuccesses cb k).state = .closed
        ∧ (recordSuccesses cb k).failureCount = 0) := by
  refine ⟨?_, ?_, ?_, ?_⟩
  · intro hh
    unfold CircuitBreaker.canExecute CircuitBreaker.stateAt
    rw [hh]
  · intro hh
    constructor
    · unfold CircuitBreaker.recordFailure
      dsimp only
      rw [hh]
    · unfold CircuitBreaker.recordFailure
      dsimp only
      rw [hh]
  · intro hh hlt
    exact recordSuccesses_halfOpen_lt k cb hh hlt
  · intro hh h1 hge
    exact recordSuccesses_halfOpen_ge k cb hh h1 hge

/-- A breaker probing recovery: HALF_OPEN with three trial calls
allowed and two consecutive failures on record. -/
def cbHalf : CircuitBreaker :=
  { name := "ichancy", failureThreshold := 5, recoveryTimeout := 60,
    halfOpenMaxCalls := 3, state := .halfOpen, failureCount := 2,
    lastFailureTime := some 5, halfOpenCalls := 0 }

/-- Closed instance of C8: the HALF_OPEN breaker lets a trial call
through; one failure at instant 70 reopens it stamping that instant;
two successes keep it HALF_OPEN with the trial counter at 2; three
consecutive successes close it and reset the failure counter. -/
theorem claim_C8_witness :
    (cbHalf.canExecute 70).1 = true
    ∧ ((cbHalf.recordFailure 70).state = .open'
        ∧ (cbHalf.recordFailure 70).lastFailureTime = some 70)
    ∧ ((recordSuccesses cbHalf 2).state = .halfOpen
        ∧ (recordSuccesses cbHalf 2).halfOpenCalls = cbHalf.halfOpenCalls + 2)
    ∧ ((recordSuccesses cbHalf 3).state = .closed
        ∧ (recordSuccesses cbHalf 3).failureCount = 0) := by
  refine ⟨?_, ?_, ?_, ?_⟩
  · exact (claim_C8 cbHalf 0 70).1 rfl
  · exact (claim_C8 cbHalf 0 70).2.1 rfl
  · exact (claim_C8 cbHalf 2 0).2.2.1 rfl (by decide)
  · exact (claim_C8 cbHalf 3 0).2.2.2 rfl (by decide) (by decide)

/-! ## Claim C9 — retry executor -/

theorem retryLoop_zero (outcomes : Nat → AttemptOutcome) (now backoff : ℚ)
    (attempt : Nat) (currentDelay : ℚ) (cb : Option CircuitBreaker)
    (sleeps : List ℚ) (invocations : Nat) (lastExc : Option String) :
    retryLoop outcomes now backoff 0 attempt currentDelay cb sleeps
        invocations lastExc =
      { outcome := .raised (lastExc.getD "None"), sleeps := sleeps,
        invocations := invocations, breaker := cb } := rfl

theorem retryLoop_succ (outcomes : Nat → AttemptOutcome) (now backoff : ℚ)
    (r attempt : Nat) (currentDelay : ℚ) (cb : Option CircuitBreaker)
    (sleeps : List ℚ) (invocations : Nat) (lastExc : Option String) :
    retryLoop outcomes now backoff (r + 1) attempt currentDelay cb sleeps
        invocations lastExc =
      (if (optCanExecute cb now).1 then
        match outcomes attempt with
        | .ok v =>
            { outcome := .success v, sleeps := sleeps,
              invocations := invocations + 1,
              breaker := optRecordSuccess (optCanExecute cb now).2 }
        | .fail e =>
            if r = 0 then
              { outcome := .raised e, sleeps := sleeps,
                invocations := invocations + 1,
                breaker := optRecordFailure (optCanExecute cb now).2 now }
            else
              retryLoop outcomes now backoff r (attempt + 1)
                (currentDelay * backoff)
                (optRecordFailure (optCanExecute cb now).2 now)
                (sleeps ++ [currentDelay]) (invocations + 1) (some e)
      else
        { outcome := .circuitOpenError, sleeps := sleeps,
          invocations := invocations,
          breaker := (optCanExecute cb now).2 }) := rfl

theorem retryLoop_sleeps (outcomes : Nat → AttemptOutcome)
    (now backoff delay : ℚ) :
    ∀ (remaining attempt : Nat) (currentDelay : ℚ)
      (cb : Option CircuitBreaker) (sleeps : List ℚ) (invocations n : Nat)
      (lastExc : Option String),
    currentDelay = delay * backoff ^ n →
    sleeps = (List.range n).map (fun i => delay * backoff ^ i) →
    (retryLoop outcomes now backoff remaining attempt currentDelay cb sleeps
        invocations lastExc).sleeps =
      (List.range (retryLoop outcomes now backoff remaining attempt
          currentDelay cb sleeps invocations lastExc).sleeps.length).map
        (fun i => delay * backoff ^ i) := by
  intro remaining
  induction remaining with
  | zero =>
      intro attempt currentDelay cb sleeps invocations n lastExc hcd hsl
      rw [retryLoop_zero]
      rw [hsl]
      simp
  | succ r ih =>
      intro attempt currentDelay cb sleeps invocations n lastExc hcd hsl
      rw [retryLoop_succ]
      cases hchk : (optCanExecute cb now).1 with
      | false =>
          rw [if_neg (by simp)]
          rw [hsl]
          simp
      | true =>
          rw [if_pos rfl]
          cases ho : outcomes attempt with
          | ok v =>
              dsimp only
              rw [hsl]
              simp
          | fail e =>
              dsimp only
              cases r with
              | zero =>
                  rw [if_pos rfl, hsl]
                  simp
              | succ r' =>
                  rw [if_neg (Nat.succ_ne_zero r')]
                  exact ih (attempt + 1) (currentDelay * backoff) _
                    (sleeps ++ [currentDelay]) (invocations + 1) (n + 1)
                    (some e)
                    (by rw [hcd, pow_succ]; ring)
                    (by rw [hsl, hcd, List.range_succ]; simp)

theorem retryLoop_invocations (outcomes : Nat → AttemptOutcome)
    (now backoff : ℚ) :
    ∀ (remaining attempt : Nat) (currentDelay : ℚ)
      (cb : Option CircuitBreaker) (sleeps : List ℚ) (invocations : Nat)
      (lastExc : Option String),
    (retryLoop outcomes now backoff remaining attempt currentDelay cb sleeps
        invocations lastExc).invocations ≤ invocations + remaining := by
  intro remaining
  induction remaining with
  | zero =>
      intro attempt currentDelay cb sleeps invocations lastExc
      rw [retryLoop_zero]
      dsimp only
      omega
  | succ r ih =>
      intro attempt currentDelay cb sleeps invocations lastExc
      rw [retryLoop_succ]
      cases hchk : (optCanExecute cb now).1 with
      | false =>
          rw [if_neg (by simp)]
          dsimp only
          omega
      | true =>
          rw [if_pos rfl]
          cases ho : outcomes attempt with
          | ok v => dsimp only; omega
          | fail e =>
              dsimp only
              cases r with
              | zero => rw [if_pos rfl]
              | succ r' =>
                  rw [if_neg (Nat.succ_ne_zero r')]
                  have h := ih (attempt + 1) (currentDelay * backoff)
                    (optRecordFailure (optCanExecute cb now).2 now)
                    (sleeps ++ [currentDelay]) (invocations + 1) (some e)
                  omega

theorem retryLoop_allFail (outcomes : Nat → AttemptOutcome)
    (now backoff : ℚ) (es : Nat → String)
    (hall : ∀ i, outcomes i = .fail (es i)) :
    ∀ (remaining attempt : Nat) (currentDelay : ℚ) (sleeps : List ℚ)
      (invocations : Nat) (lastExc : Option String), 1 ≤ remaining →
    (retryLoop outcomes now backoff remaining attempt currentDelay none
        sleeps invocations lastExc).outcome =
      .raised (es (attempt + remaining - 1))
    ∧ (retryLoop outcomes now backoff remaining attempt currentDelay none
        sleeps invocations lastExc).invocations = invocations + remaining := by
  intro remaining
  induction remaining with
  | zero =>
      intro _ _ _ _ _ h1
      exact absurd h1 (by omega)
  | succ r ih =>
      intro attempt currentDelay sleeps invocations lastExc _
      have hcan : (optCanExecute (none : Option CircuitBreaker) now).1 = true :=
        rfl
      rw [retryLoop_succ, if_pos hcan, hall attempt]
      dsimp only
      cases r with
      | zero =>
          rw [if_pos rfl]
          constructor
          · have hi : attempt + 1 - 1 = attempt := by omega
            rw [hi]
          · rfl
      | succ r' =>
          rw [if_neg (Nat.succ_ne_zero r')]
          have hb : optRecordFailure
              (optCanExecute (none : Option CircuitBreaker) now).2 now =
              none := rfl
          rw [hb]
          have h := ih (attempt + 1) (currentDelay * backoff)
            (sleeps ++ [currentDelay]) (invocations + 1) (some (es attempt))
            (by omega)
          have hi : attempt + 1 + (r' + 1) - 1 = attempt + (r' + 1 + 1) - 1 := by
            omega
          refine ⟨?_, ?_⟩
          · rw [h.1, hi]
          · rw [h.2]
            omega

/-- C9: the retry executor fails immediately (no sleep, no invocation)
when the attached breaker reports it cannot execute; on first-attempt
success it reports success to the breaker and returns the result after
one invocation with no sleep; on a retryable failure with attempts
remaining it reports failure to the breaker, sleeps `current_delay`,
multiplies the delay by `backoff` and retries; every run sleeps
`delay * backoff ^ i` on its i-th sleep and invokes the operation at
most `max_retries + 1` times; and when every attempt fails (no breaker
attached) it re-raises the last failure after exactly
`max_retries + 1` invocations. -/
theorem claim_C9 (outcomes : Nat → AttemptOutcome) (maxRetries : Nat)
    (delay backoff : ℚ) (cb : Option CircuitBreaker) (now : ℚ) :
    ((optCanExecute cb now).1 = false →
      retryAsync outcomes maxRetries delay backoff cb now =
        { outcome := .circuitOpenError, sleeps := [], invocations := 0,
          breaker := (optCanExecute cb now).2 })
    ∧ ((optCanExecute cb now).1 = true → ∀ v, outcomes 0 = .ok v →
        retryAsync outcomes maxRetries delay backoff cb now =
          { outcome := .success v, sleeps := [], invocations := 1,
            breaker := optRecordSuccess (optCanExecute cb now).2 })
    ∧ ((optCanExecute cb now).1 = true → ∀ e m, outcomes 0 = .fail e →
        maxRetries = m + 1 →
        retryAsync outcomes maxRetries delay backoff cb now =
          retryLoop outcomes now backoff (m + 1) 1 (delay * backoff)
            (optRecordFailure (optCanExecute cb now).2 now) [delay] 1
            (some e))
    ∧ ((retryAsync outcomes maxRetries delay backoff cb now).sleeps =
        (List.range (retryAsync outcomes maxRetries delay backoff cb
            now).sleeps.length).map (fun i => delay * backoff ^ i))
    ∧ ((retryAsync outcomes maxRetries delay backoff cb now).invocations ≤
        maxRetries + 1)
    ∧ (∀ es : Nat → String, (∀ i, outcomes i = .fail (es i)) → cb = none →
        (retryAsync outcomes maxRetries delay backoff cb now).outcome =
          .raised (es maxRetries)
        ∧ (retryAsync outcomes maxRetries delay backoff cb
            now).invocations = maxRetries + 1) := by
  refine ⟨?_, ?_, ?_, ?_, ?_, ?_⟩
  · intro hf
    unfold retryAsync
    rw [retryLoop_succ, if_neg (by simp [hf])]
  · intro ht v ho
    unfold retryAsync
    rw [retryLoop_succ, if_pos ht, ho]
  · intro ht e m ho hm
    subst hm
    unfold retryAsync
    rw [retryLoop_succ, if_pos ht, ho]
    dsimp only
    rw [if_neg (Nat.succ_ne_zero m)]
    rfl
  · exact retryLoop_sleeps outcomes now backoff delay (maxRetries + 1) 0
      delay cb [] 0 0 none (by ring) rfl
  · have h := retryLoop_invocations outcomes now backoff (maxRetries + 1) 0
      delay cb [] 0 none
    simpa using h
  · intro es hall hcb
    subst hcb
    have h := retryLoop_allFail outcomes now backoff es hall (maxRetries + 1)
      0 delay [] 0 none (by omega)
    refine ⟨?_, ?_⟩
    · rw [retryAsync, h.1]
      have hi : 0 + (maxRetries + 1) - 1 = maxRetries := by omega
      rw [hi]
    · rw [retryAsync, h.2]
      omega

/-- A wrapped operation that fails on its first two invocations and
succeeds on the third. -/
def flaky : Nat → AttemptOutcome
  | 0 => .fail "timeout"
  | 1 => .fail "timeout"
  | _ => .ok "done"

/-- Closed instance of C9 with `max_retries = 3`, `delay = 1`,
`backoff = 2` and no breaker: the sleep schedule is the geometric
`1 * 2 ^ i`, the operation is invoked at most four times, and with an
always-failing operation the last failure is re-raised after exactly
four invocations. -/
theorem claim_C9_witness :
    ((retryAsync flaky 3 1 2 none 0).sleeps =
      (List.range (retryAsync flaky 3 1 2 none 0).sleeps.length).map
        (fun i => (1 : ℚ) * 2 ^ i))
    ∧ ((retryAsync flaky 3 1 2 none 0).invocations ≤ 3 + 1)
    ∧ ((retryAsync (fun i => .fail (toString i)) 3 1 2 none 0).outcome =
        .raised (toString 3)
      ∧ (retryAsync (fun i => .fail (toString i)) 3 1 2 none
          0).invocations = 3 + 1) := by
  refine ⟨?_, ?_, ?_⟩
  · exact (claim_C9 flaky 3 1 2 none 0).2.2.2.1
  · exact (claim_C9 flaky 3 1 2 none 0).2.2.2.2.1
  · exact (claim_C9 (fun i => .fail (toString i)) 3 1 2 none 0).2.2.2.2.2
      (fun i => toString i) (fun i => rfl) rfl

end FinBot
